import Mathlib

/-!
Verification development for the `terraform-provider-civicrm` repository
(Go package `provider`).  The definitions below are a shallow embedding of
the generic CiviCRM API v4 client (`client.go`-style code), its type
coercion helpers, and the per-resource adapters for the Group, ACL Role,
ACL Entity Role and Relationship Type entities.  Machine `float64` numbers
that reach the coercion helpers are modelled as rationals; the network is
modelled as an explicit oracle mapping each client call to a transport
outcome, so that the number and order of network round trips performed by
an operation is visible as an explicit call trace.
-/

namespace CiviCRM

/-- A wire value, modelling the Go `any` values that appear in the
`map[string]any` request/response maps.  JSON decoding in Go yields
`bool`, `float64`, `string`, `nil`, and (with `UseNumber`) `json.Number`;
the adapters additionally place Go `int64`, `int` and `[]string` values
into request maps.  Each Go dynamic type that the helpers' type switches
distinguish gets its own constructor. -/
inductive WireVal where
  | wBool (b : Bool)
  | wFloat (q : ℚ)
  | wInt (n : ℤ)
  | wInt64 (n : ℤ)
  | wJsonNum (s : String)
  | wStr (s : String)
  | wNull
  | wStrArr (elems : List String)
  deriving Repr, DecidableEq

/-- A flat record: the Go `map[string]any`, as an association list. -/
abbrev Rec : Type := List (String × WireVal)

/-- Truncation toward zero, the semantics of Go's `int64(f)` conversion on
a `float64` value (modelled as a rational). -/
def truncTowardZero (q : ℚ) : ℤ :=
  q.num.tdiv q.den

/-- Decimal digit list to its numeric value; `none` if the list is empty
or contains a non-digit. -/
def digitsToNat : List Char → Option ℕ
  | [] => none
  | cs =>
    if cs.all (fun c => c.isDigit) then
      some (cs.foldl (fun acc c => 10 * acc + (c.toNat - '0'.toNat)) 0)
    else
      none

/-- Model of Go `strconv.ParseInt(s, 10, 64)` as used by
`json.Number.Int64`: optional sign, at least one decimal digit, nothing
else, and the value must fit in a signed 64-bit integer. -/
def parseInt64String (s : String) : Option ℤ :=
  match s.toList with
  | [] => none
  | c :: rest =>
    let signAndDigits : ℤ × List Char :=
      if c = '-' then (-1, rest)
      else if c = '+' then (1, rest)
      else (1, c :: rest)
    match digitsToNat signAndDigits.2 with
    | none => none
    | some n =>
      let v : ℤ := signAndDigits.1 * (n : ℤ)
      if v < -(2 ^ 63) ∨ (2 ^ 63 - 1 : ℤ) < v then none else some v

/-- `GetInt64` from the client helpers: safely extracts an `int64` from a
map value.  Mirrors the Go type switch: `float64` converts with
truncation, `int64` and `int` pass through, `json.Number` goes through
`Int64()` (i.e. `ParseInt` base 10, 64-bit), everything else - including
strings - reports absence. -/
def GetInt64 (m : Rec) (key : String) : ℤ × Bool :=
  match m.lookup key with
  | none => (0, false)
  | some v =>
    match v with
    | .wFloat q => (truncTowardZero q, true)
    | .wInt64 n => (n, true)
    | .wInt n => (n, true)
    | .wJsonNum s =>
      match parseInt64String s with
      | some i => (i, true)
      | none => (0, false)
    | _ => (0, false)

/-- `GetString` from the client helpers: only a genuine string value is
extracted; anything else reports absence. -/
def GetString (m : Rec) (key : String) : String × Bool :=
  match m.lookup key with
  | none => ("", false)
  | some v =>
    match v with
    | .wStr s => (s, true)
    | _ => ("", false)

/-- `GetBool` from the client helpers.  Mirrors the Go type switch:
`bool` passes through; a `float64` or `int` value compares against `1`;
a string compares against `"1"` and `"true"`; every other dynamic type
falls to the default case and reports absence. -/
def GetBool (m : Rec) (key : String) : Bool × Bool :=
  match m.lookup key with
  | none => (false, false)
  | some v =>
    match v with
    | .wBool b => (b, true)
    | .wFloat q => (decide (q = 1), true)
    | .wInt n => (decide (n = 1), true)
    | .wStr s => (decide (s = "1") || decide (s = "true"), true)
    | _ => (false, false)

/-- The rational 39/10, i.e. the `float64` value `3.9`, given with an
explicit normalized representation so that it evaluates by kernel
reduction. -/
def threePointNine : ℚ := ⟨39, 10, by norm_num, by norm_num⟩

/-- The standard CiviCRM API v4 response envelope (`APIResponse`). -/
structure APIResponse where
  version : ℤ := 4
  count : ℤ := 0
  values : List Rec := []
  errorCode : ℤ := 0
  errorMessage : String := ""
  deriving Repr, DecidableEq

/-- The body of an HTTP reply, as seen after `json.Unmarshal`: either it
fails to parse (carrying the parse error text) or it parses into an
envelope. -/
inductive ParsedBody where
  | malformed (parseErr : String)
  | wellFormed (resp : APIResponse)
  deriving Repr, DecidableEq

/-- An HTTP reply: status code, the raw body text, and the result of
attempting to parse the body. -/
structure HTTPReply where
  status : ℕ
  raw : String
  body : ParsedBody
  deriving Repr, DecidableEq

/-- The outcome of one network round trip: either the transport fails
(DNS/connect/TLS/timeout) or an HTTP reply arrives. -/
inductive TransportOutcome where
  | transportError (msg : String)
  | reply (r : HTTPReply)
  deriving Repr, DecidableEq

/-- One client call, determined by the entity, the action, and the
`where` / `values` / `select` parameters the method places into the
request's JSON parameter object. -/
structure ClientCall where
  entity : String
  action : String
  whereCl : List (String × String × WireVal) := []
  values : List (String × WireVal) := []
  select : List String := []
  deriving Repr, DecidableEq

/-- The network oracle: what the remote system answers to each call. -/
def Net : Type := ClientCall → TransportOutcome

/-- `Client.doRequest`: performs one request and checks, in order, the
HTTP status, the JSON parse result, and the envelope's own error fields.
Each failure is surfaced immediately with the same message text the Go
code formats; nothing is retried. -/
def Client.doRequest (net : Net) (call : ClientCall) : Except String APIResponse :=
  match net call with
  | .transportError e => .error ("request failed: " ++ e)
  | .reply r =>
    if r.status < 200 ∨ 300 ≤ r.status then
      .error ("API request failed with status " ++ toString r.status ++ ": " ++ r.raw)
    else
      match r.body with
      | .malformed perr =>
        .error ("failed to parse response: " ++ perr ++ ", body: " ++ r.raw)
      | .wellFormed resp =>
        if resp.errorCode ≠ 0 ∨ resp.errorMessage ≠ "" then
          .error ("API error " ++ toString resp.errorCode ++ ": " ++ resp.errorMessage)
        else
          .ok resp

/-- The call issued by `Client.Create`: params `{values: ...}`. -/
def createCall (entity : String) (vals : List (String × WireVal)) : ClientCall :=
  { entity := entity, action := "create", values := vals }

/-- The call issued by `Client.Get`: params `{where: ..., select?: ...}`
(the Go code adds `select` only when the list is non-empty; an empty
`select` list here models its omission). -/
def getCall (entity : String) (whereCl : List (String × String × WireVal))
    (select : List String) : ClientCall :=
  { entity := entity, action := "get", whereCl := whereCl, select := select }

/-- The call issued by `Client.Update`: a `where` filter on id plus the
values map. -/
def updateCall (entity : String) (id : ℤ) (vals : List (String × WireVal)) : ClientCall :=
  { entity := entity, action := "update",
    whereCl := [("id", "=", WireVal.wInt64 id)], values := vals }

/-- The call issued by `Client.Delete`: a `where` filter on id. -/
def deleteCall (entity : String) (id : ℤ) : ClientCall :=
  { entity := entity, action := "delete",
    whereCl := [("id", "=", WireVal.wInt64 id)] }

/-- `Client.Create`: one request; an empty `values` list in the envelope
is an error, otherwise the first record is returned. -/
def Client.Create (net : Net) (entity : String) (vals : List (String × WireVal)) :
    Except String Rec :=
  match Client.doRequest net (createCall entity vals) with
  | .error e => .error e
  | .ok resp =>
    match resp.values with
    | [] => .error "no values returned from create operation"
    | v :: _ => .ok v

/-- `Client.Get`: one request; returns the envelope's `values` list. -/
def Client.Get (net : Net) (entity : String)
    (whereCl : List (String × String × WireVal)) (select : List String) :
    Except String (List Rec) :=
  match Client.doRequest net (getCall entity whereCl select) with
  | .error e => .error e
  | .ok resp => .ok resp.values

/-- `Client.GetByID`: a `Client.Get` with an equality filter on `id`; an
empty result list becomes a "not found" error, otherwise the first record
is returned. -/
def Client.GetByID (net : Net) (entity : String) (id : ℤ) (select : List String) :
    Except String Rec :=
  match Client.Get net entity [("id", "=", WireVal.wInt64 id)] select with
  | .error e => .error e
  | .ok [] => .error (entity ++ " with ID " ++ toString id ++ " not found")
  | .ok (v :: _) => .ok v

/-- `Client.Update`: one request filtered by id; an empty `values` list in
the envelope is an error, otherwise the first record is returned. -/
def Client.Update (net : Net) (entity : String) (id : ℤ)
    (vals : List (String × WireVal)) : Except String Rec :=
  match Client.doRequest net (updateCall entity id vals) with
  | .error e => .error e
  | .ok resp =>
    match resp.values with
    | [] => .error "no values returned from update operation"
    | v :: _ => .ok v

/-- A string option serialized for an update payload: the value when set,
explicit JSON null when unset (the Go `values[k] = nil` branch). -/
def optNullStr : Option String → WireVal
  | some s => .wStr s
  | none => .wNull

/-- The plan of a `civicrm_relationship_type` resource.  Required string
attributes are plain strings; optional ones are `Option`; the two bool
attributes carry schema defaults and are always known in a plan. -/
structure RelTypePlan where
  nameAB : String
  labelAB : String
  nameBA : String
  labelBA : String
  description : Option String := none
  contactTypeA : Option String := none
  contactTypeB : Option String := none
  contactSubTypeA : Option String := none
  contactSubTypeB : Option String := none
  isReserved : Bool := false
  isActive : Bool := true
  deriving Repr, DecidableEq

/-- The `values` map built by `RelationshipTypeResource.Create`: required
fields always present, each optional field added only when set. -/
def RelationshipTypeResource.createValues (p : RelTypePlan) : List (String × WireVal) :=
  [("name_a_b", .wStr p.nameAB),
   ("label_a_b", .wStr p.labelAB),
   ("name_b_a", .wStr p.nameBA),
   ("label_b_a", .wStr p.labelBA),
   ("is_reserved", .wBool p.isReserved),
   ("is_active", .wBool p.isActive)]
  ++ (match p.description with
      | some d => [("description", WireVal.wStr d)]
      | none => [])
  ++ (match p.contactTypeA with
      | some v => [("contact_type_a", WireVal.wStr v)]
      | none => [])
  ++ (match p.contactTypeB with
      | some v => [("contact_type_b", WireVal.wStr v)]
      | none => [])
  ++ (match p.contactSubTypeA with
      | some v => [("contact_sub_type_a", WireVal.wStr v)]
      | none => [])
  ++ (match p.contactSubTypeB with
      | some v => [("contact_sub_type_b", WireVal.wStr v)]
      | none => [])

/-- The `values` map built by `RelationshipTypeResource.Update`: every
optional field is always present, as its value when set and as explicit
null when unset. -/
def RelationshipTypeResource.updateValues (p : RelTypePlan) : List (String × WireVal) :=
  [("name_a_b", .wStr p.nameAB),
   ("label_a_b", .wStr p.labelAB),
   ("name_b_a", .wStr p.nameBA),
   ("label_b_a", .wStr p.labelBA),
   ("is_reserved", .wBool p.isReserved),
   ("is_active", .wBool p.isActive),
   ("description", optNullStr p.description),
   ("contact_type_a", optNullStr p.contactTypeA),
   ("contact_type_b", optNullStr p.contactTypeB),
   ("contact_sub_type_a", optNullStr p.contactSubTypeA),
   ("contact_sub_type_b", optNullStr p.contactSubTypeB)]

/-- The plan of a `civicrm_group` resource. -/
structure GroupPlan where
  name : String
  title : String
  description : Option String := none
  isActive : Bool := true
  visibility : String := "User and User Admin Only"
  groupType : Option (List String) := none
  deriving Repr, DecidableEq

/-- The `values` map built by `GroupResource.Create`: `description` and
`group_type` are added only when set; the declared `group_type` strings
are passed through as-is. -/
def GroupResource.createValues (p : GroupPlan) : List (String × WireVal) :=
  [("name", .wStr p.name),
   ("title", .wStr p.title),
   ("is_active", .wBool p.isActive),
   ("visibility", .wStr p.visibility)]
  ++ (match p.description with
      | some d => [("description", WireVal.wStr d)]
      | none => [])
  ++ (match p.groupType with
      | some ts => [("group_type", WireVal.wStrArr ts)]
      | none => [])

/-- The `values` map built by `GroupResource.Update`: `description` is
always present (null when unset), but `group_type` is added only when
set - there is no `else` branch nulling it. -/
def GroupResource.updateValues (p : GroupPlan) : List (String × WireVal) :=
  [("name", .wStr p.name),
   ("title", .wStr p.title),
   ("is_active", .wBool p.isActive),
   ("visibility", .wStr p.visibility),
   ("description", optNullStr p.description)]
  ++ (match p.groupType with
      | some ts => [("group_type", WireVal.wStrArr ts)]
      | none => [])

/-- The state of a `civicrm_group` resource as held by Terraform. -/
structure GroupState where
  id : Option ℤ := none
  name : Option String := none
  title : Option String := none
  description : Option String := none
  isActive : Option Bool := none
  visibility : Option String := none
  groupType : Option (List String) := none
  deriving Repr, DecidableEq

/-- The state mapping performed by `GroupResource.Read` on the fetched
record: `name`, `title`, `is_active` and `visibility` are set when
present, `description` is normalized (absent or empty string becomes
null), and `group_type` is not touched at all. -/
def GroupResource.readApply (st : GroupState) (r : Rec) : GroupState :=
  let st := if (GetString r "name").2 then { st with name := some (GetString r "name").1 } else st
  let st := if (GetString r "title").2 then { st with title := some (GetString r "title").1 } else st
  let st :=
    if (GetString r "description").2 ∧ (GetString r "description").1 ≠ "" then
      { st with description := some (GetString r "description").1 }
    else
      { st with description := none }
  let st := if (GetBool r "is_active").2 then { st with isActive := some (GetBool r "is_active").1 } else st
  let st := if (GetString r "visibility").2 then { st with visibility := some (GetString r "visibility").1 } else st
  st

/-- The plan of a `civicrm_acl_role` resource. -/
structure ACLRolePlan where
  name : String
  label : String
  description : Option String := none
  isActive : Bool := true
  weight : Option ℤ := none
  deriving Repr, DecidableEq

/-- The `values` map built by `ACLRoleResource.Create` once the
`acl_role` option group id has been resolved: the role is stored as an
`OptionValue` inside that group. -/
def ACLRoleResource.createValues (optionGroupID : ℤ) (p : ACLRolePlan) :
    List (String × WireVal) :=
  [("option_group_id", .wInt64 optionGroupID),
   ("name", .wStr p.name),
   ("label", .wStr p.label),
   ("is_active", .wBool p.isActive)]
  ++ (match p.description with
      | some d => [("description", WireVal.wStr d)]
      | none => [])
  ++ (match p.weight with
      | some w => [("weight", WireVal.wInt64 w)]
      | none => [])

/-- The `values` map built by `ACLRoleResource.Update`: `description` is
always present (null when unset) but `weight` is added only when set. -/
def ACLRoleResource.updateValues (p : ACLRolePlan) : List (String × WireVal) :=
  [("name", .wStr p.name),
   ("label", .wStr p.label),
   ("is_active", .wBool p.isActive),
   ("description", optNullStr p.description)]
  ++ (match p.weight with
      | some w => [("weight", WireVal.wInt64 w)]
      | none => [])

/-- A Terraform diagnostic: summary and detail, as passed to
`resp.Diagnostics.AddError`. -/
abbrev Diag : Type := String × String

/-- Modelled from the spec: `Client.GetOptionGroupID` is called by
`ACLRoleResource.Create` but its definition is not among the files under
review.  The spec states that ACL Role create performs "an extra
resolution step before create: looking up the numeric id of a named
option group", and that this resolution is one client call; so the lookup
is one `Get` on the `OptionGroup` entity filtered by name, returning the
id of the first match and an error when nothing matches. -/
def Client.GetOptionGroupID (net : Net) (name : String) : Except String ℤ :=
  match Client.Get net "OptionGroup" [("name", "=", WireVal.wStr name)] [] with
  | .error e => .error e
  | .ok [] => .error ("option group " ++ name ++ " not found")
  | .ok (v :: _) =>
    match GetInt64 v "id" with
    | (i, true) => .ok i
    | (_, false) => .error ("option group " ++ name ++ " has no id")

/-- `Client.Create` together with the single call it issues. -/
def Client.CreateT (net : Net) (entity : String) (vals : List (String × WireVal)) :
    Except String Rec × List ClientCall :=
  (Client.Create net entity vals, [createCall entity vals])

/-- `Client.Get` together with the single call it issues. -/
def Client.GetT (net : Net) (entity : String)
    (whereCl : List (String × String × WireVal)) (select : List String) :
    Except String (List Rec) × List ClientCall :=
  (Client.Get net entity whereCl select, [getCall entity whereCl select])

/-- `Client.GetByID` together with the single call it issues. -/
def Client.GetByIDT (net : Net) (entity : String) (id : ℤ) (select : List String) :
    Except String Rec × List ClientCall :=
  (Client.GetByID net entity id select,
   [getCall entity [("id", "=", WireVal.wInt64 id)] select])

/-- `Client.GetOptionGroupID` together with the single call it issues. -/
def Client.GetOptionGroupIDT (net : Net) (name : String) :
    Except String ℤ × List ClientCall :=
  (Client.GetOptionGroupID net name,
   [getCall "OptionGroup" [("name", "=", WireVal.wStr name)] []])

/-- `ACLRoleResource.Create`: first resolve the `acl_role` option group
id; on failure report the diagnostic and stop; otherwise create an
`OptionValue` carrying `option_group_id` bound to the resolved id.  The
second component is the trace of client calls actually issued. -/
def ACLRoleResource.Create (net : Net) (p : ACLRolePlan) :
    Except Diag Rec × List ClientCall :=
  match Client.GetOptionGroupIDT net "acl_role" with
  | (.error e, t1) =>
    (.error ("Error looking up option group",
             "Could not find acl_role option group: " ++ e), t1)
  | (.ok gid, t1) =>
    match Client.CreateT net "OptionValue" (ACLRoleResource.createValues gid p) with
    | (.error e, t2) =>
      (.error ("Error creating ACL role",
               "Could not create ACL role, unexpected error: " ++ e), t1 ++ t2)
    | (.ok r, t2) => (.ok r, t1 ++ t2)

/-- `ACLRoleResource.Read`: a plain `Client.GetByID` on the `OptionValue`
entity with the state's id and no select list. -/
def ACLRoleResource.Read (net : Net) (stateID : ℤ) :
    Except Diag Rec × List ClientCall :=
  match Client.GetByIDT net "OptionValue" stateID [] with
  | (.error e, t) =>
    (.error ("Error reading ACL role",
             "Could not read ACL role ID " ++ toString stateID ++ ": " ++ e), t)
  | (.ok r, t) => (.ok r, t)

/-- The configuration of a `civicrm_group` data source lookup. -/
structure GroupDSConfig where
  id : Option ℤ := none
  name : Option String := none
  deriving Repr, DecidableEq

/-- The `where` clause built by `GroupDataSource.Read` from the
configured filters. -/
def GroupDataSource.whereClause (cfg : GroupDSConfig) :
    List (String × String × WireVal) :=
  (match cfg.id with
   | some i => [("id", "=", WireVal.wInt64 i)]
   | none => [])
  ++ (match cfg.name with
      | some n => [("name", "=", WireVal.wStr n)]
      | none => [])

/-- `GroupDataSource.Read`: builds the `where` clause; with no filter at
all it fails fast with the Missing Filter diagnostic and issues no client
call; otherwise one `Get`, a "not found" diagnostic on an empty result
list, and the first record on a non-empty one. -/
def GroupDataSource.Read (net : Net) (cfg : GroupDSConfig) :
    Except Diag Rec × List ClientCall :=
  if GroupDataSource.whereClause cfg = [] then
    (.error ("Missing Filter", "At least one of 'id' or 'name' must be specified."), [])
  else
    match Client.GetT net "Group" (GroupDataSource.whereClause cfg) [] with
    | (.error e, t) =>
      (.error ("Error reading group", "Could not read group: " ++ e), t)
    | (.ok [], t) =>
      (.error ("Group not found", "No group found matching the specified criteria."), t)
    | (.ok (v :: _), t) => (.ok v, t)

/-- The configuration of a `civicrm_acl_role` data source lookup. -/
structure ACLRoleDSConfig where
  id : Option ℤ := none
  name : Option String := none
  deriving Repr, DecidableEq

/-- The `where` clause built by `ACLRoleDataSource.Read`: it always
starts with the `option_group_id:name = "acl_role"` condition and then
adds the configured filters. -/
def ACLRoleDataSource.whereClause (cfg : ACLRoleDSConfig) :
    List (String × String × WireVal) :=
  [("option_group_id:name", "=", WireVal.wStr "acl_role")]
  ++ (match cfg.id with
      | some i => [("id", "=", WireVal.wInt64 i)]
      | none => [])
  ++ (match cfg.name with
      | some n => [("name", "=", WireVal.wStr n)]
      | none => [])

/-- The state of a `civicrm_acl_role` data source. -/
structure ACLRoleDSState where
  id : Option ℤ := none
  name : Option String := none
  label : Option String := none
  description : Option String := none
  isActive : Option Bool := none
  weight : Option ℤ := none
  value : Option String := none
  deriving Repr, DecidableEq

/-- The state mapping performed by `ACLRoleDataSource.Read` on the chosen
record: each field is set when present; `description` is normalized
(absent or empty string becomes null). -/
def ACLRoleDataSource.apply (cfg : ACLRoleDSConfig) (r : Rec) : ACLRoleDSState :=
  let st : ACLRoleDSState := { id := cfg.id, name := cfg.name }
  let st := if (GetInt64 r "id").2 then { st with id := some (GetInt64 r "id").1 } else st
  let st := if (GetString r "name").2 then { st with name := some (GetString r "name").1 } else st
  let st := if (GetString r "label").2 then { st with label := some (GetString r "label").1 } else st
  let st :=
    if (GetString r "description").2 ∧ (GetString r "description").1 ≠ "" then
      { st with description := some (GetString r "description").1 }
    else
      { st with description := none }
  let st := if (GetBool r "is_active").2 then { st with isActive := some (GetBool r "is_active").1 } else st
  let st := if (GetInt64 r "weight").2 then { st with weight := some (GetInt64 r "weight").1 } else st
  let st := if (GetString r "value").2 then { st with value := some (GetString r "value").1 } else st
  st

/-- `ACLRoleDataSource.Read`: builds the `where` clause (option group
condition first), fails fast with the Missing Filter diagnostic - before
any client call - when neither `id` nor `name` is set, and otherwise
performs one `Get` on `OptionValue`, erroring on an empty result list and
populating state from the first record otherwise. -/
def ACLRoleDataSource.Read (net : Net) (cfg : ACLRoleDSConfig) :
    Except Diag ACLRoleDSState × List ClientCall :=
  if cfg.id = none ∧ cfg.name = none then
    (.error ("Missing Filter", "At least one of 'id' or 'name' must be specified."), [])
  else
    match Client.GetT net "OptionValue" (ACLRoleDataSource.whereClause cfg) [] with
    | (.error e, t) =>
      (.error ("Error reading ACL role", "Could not read ACL role: " ++ e), t)
    | (.ok [], t) =>
      (.error ("ACL role not found", "No ACL role found matching the specified criteria."), t)
    | (.ok (v :: _), t) => (.ok (ACLRoleDataSource.apply cfg v), t)

/-- The configuration of a `civicrm_acl_entity_role` data source lookup. -/
structure ACLEntityRoleDSConfig where
  id : Option ℤ := none
  aclRoleID : Option ℤ := none
  entityTable : Option String := none
  entityID : Option ℤ := none
  deriving Repr, DecidableEq

/-- The `where` clause built by `ACLEntityRoleDataSource.Read` from the
configured filters. -/
def ACLEntityRoleDataSource.whereClause (cfg : ACLEntityRoleDSConfig) :
    List (String × String × WireVal) :=
  (match cfg.id with
   | some i => [("id", "=", WireVal.wInt64 i)]
   | none => [])
  ++ (match cfg.aclRoleID with
      | some i => [("acl_role_id", "=", WireVal.wInt64 i)]
      | none => [])
  ++ (match cfg.entityTable with
      | some s => [("entity_table", "=", WireVal.wStr s)]
      | none => [])
  ++ (match cfg.entityID with
      | some i => [("entity_id", "=", WireVal.wInt64 i)]
      | none => [])

/-- The state of a `civicrm_acl_entity_role` data source. -/
structure ACLEntityRoleDSState where
  id : Option ℤ := none
  aclRoleID : Option ℤ := none
  entityTable : Option String := none
  entityID : Option ℤ := none
  isActive : Option Bool := none
  deriving Repr, DecidableEq

/-- The state mapping performed by `ACLEntityRoleDataSource.Read` on the
chosen record. -/
def ACLEntityRoleDataSource.apply (cfg : ACLEntityRoleDSConfig) (r : Rec) :
    ACLEntityRoleDSState :=
  let st : ACLEntityRoleDSState :=
    { id := cfg.id, aclRoleID := cfg.aclRoleID,
      entityTable := cfg.entityTable, entityID := cfg.entityID }
  let st := if (GetInt64 r "id").2 then { st with id := some (GetInt64 r "id").1 } else st
  let st := if (GetInt64 r "acl_role_id").2 then { st with aclRoleID := some (GetInt64 r "acl_role_id").1 } else st
  let st := if (GetString r "entity_table").2 then { st with entityTable := some (GetString r "entity_table").1 } else st
  let st := if (GetInt64 r "entity_id").2 then { st with entityID := some (GetInt64 r "entity_id").1 } else st
  let st := if (GetBool r "is_active").2 then { st with isActive := some (GetBool r "is_active").1 } else st
  st

/-- `ACLEntityRoleDataSource.Read`: requires either `id` or the
combination of `acl_role_id` and `entity_id`; otherwise one `Get` on
`ACLEntityRole`, erroring on an empty result list and populating state
from the first record otherwise. -/
def ACLEntityRoleDataSource.Read (net : Net) (cfg : ACLEntityRoleDSConfig) :
    Except Diag ACLEntityRoleDSState × List ClientCall :=
  if ¬ (cfg.id ≠ none ∨ (cfg.aclRoleID ≠ none ∧ cfg.entityID ≠ none)) then
    (.error ("Missing Filter",
             "Either 'id' or both 'acl_role_id' and 'entity_id' must be specified."), [])
  else
    match Client.GetT net "ACLEntityRole" (ACLEntityRoleDataSource.whereClause cfg) [] with
    | (.error e, t) =>
      (.error ("Error reading ACL entity role", "Could not read ACL entity role: " ++ e), t)
    | (.ok [], t) =>
      (.error ("ACL entity role not found",
               "No ACL entity role found matching the specified criteria."), t)
    | (.ok (v :: _), t) => (.ok (ACLEntityRoleDataSource.apply cfg v), t)

/-! ## Theorems -/

/-- Helper: `truncTowardZero` really is truncation toward zero - the
floor for nonnegative rationals and the ceiling for negative ones. -/
theorem truncTowardZero_eq (q : ℚ) :
    truncTowardZero q = if q < 0 then ⌈q⌉ else ⌊q⌋ := by
  unfold truncTowardZero
  by_cases h : q < 0
  · simp only [h, if_true]
    have hnum : q.num < 0 := Rat.num_neg.mpr h
    have h1 : q.num.tdiv q.den = -((-q.num).tdiv q.den) := by
      rw [Int.neg_tdiv, neg_neg]
    have h2 : (-q.num).tdiv q.den = (-q.num) / (q.den : ℤ) :=
      Int.tdiv_eq_ediv (by omega) (by positivity)
    have h3 : ⌊-q⌋ = (-q.num) / (q.den : ℤ) := by
      rw [Rat.floor_def, Rat.neg_num, Rat.neg_den]
    have h4 : ⌈q⌉ = -⌊-q⌋ := by
      rw [Int.floor_neg]
      ring
    rw [h1, h2, ← h3, h4]
  · simp only [h, if_false]
    have hnum : 0 ≤ q.num := Rat.num_nonneg.mpr (le_of_not_lt h)
    rw [Int.tdiv_eq_ediv hnum (by positivity), Rat.floor_def]

/-- C10: `GetInt64` reports absence for string-encoded integers and for
absent keys; a `float64` value is accepted with truncation toward zero
(non-integral numbers coerce rather than fail); a `json.Number` is
accepted exactly when it parses as a signed 64-bit integer. -/
theorem c10_theorem :
    (∀ (m : Rec) (k : String), m.lookup k = none → GetInt64 m k = (0, false)) ∧
    (∀ (m : Rec) (k s : String),
      m.lookup k = some (.wStr s) → GetInt64 m k = (0, false)) ∧
    (∀ (m : Rec) (k : String) (q : ℚ),
      m.lookup k = some (.wFloat q) → GetInt64 m k = (truncTowardZero q, true)) ∧
    (∀ q : ℚ, truncTowardZero q = if q < 0 then ⌈q⌉ else ⌊q⌋) ∧
    (∀ (m : Rec) (k s : String),
      m.lookup k = some (.wJsonNum s) →
        ((GetInt64 m k).2 = false ↔ parseInt64String s = none)) := by
  refine ⟨?_, ?_, ?_, truncTowardZero_eq, ?_⟩
  · intro m k h
    unfold GetInt64
    rw [h]
  · intro m k s h
    unfold GetInt64
    rw [h]
  · intro m k q h
    unfold GetInt64
    rw [h]
  · intro m k s h
    unfold GetInt64
    rw [h]
    cases hp : parseInt64String s <;> simp [hp]

/-- Witness for C10 at concrete inputs: the string `"42"`, the float
`3.9` (which coerces to `3`), a malformed `json.Number`, and an absent
key. -/
theorem c10_witness :
    GetInt64 [("k", WireVal.wStr "42")] "k" = (0, false) ∧
    GetInt64 [("k", WireVal.wFloat threePointNine)] "k" = (3, true) ∧
    (GetInt64 [("k", WireVal.wJsonNum "abc")] "k").2 = false ∧
    GetInt64 ([] : Rec) "k" = (0, false) := by
  refine ⟨c10_theorem.2.1 [("k", WireVal.wStr "42")] "k" "42" rfl, ?_, ?_, c10_theorem.1 [] "k" rfl⟩
  · have h := c10_theorem.2.2.1 [("k", WireVal.wFloat threePointNine)] "k" threePointNine rfl
    rw [h]
    decide
  · have h := c10_theorem.2.2.2.2 [("k", WireVal.wJsonNum "abc")] "k" "abc" rfl
    exact h.mpr (by decide)

/-- C2 counterexample: on the wire values `"nonsense"` (a string that is
neither `"1"` nor `"true"`), the number `2`, and the Go int `5`, `GetBool`
returns presence = `true` (with value `false`), not presence = `false` as
the claim states. -/
theorem c2_counterexample :
    GetBool [("k", WireVal.wStr "nonsense")] "k" = (false, true) ∧
    GetBool [("k", WireVal.wFloat 2)] "k" = (false, true) ∧
    GetBool [("k", WireVal.wInt 5)] "k" = (false, true) := by
  decide

/-- C2 as amended: `GetBool` returns `(true, true)` for boolean `true`,
numbers equal to `1`, and the strings `"1"`/`"true"`; `(false, true)` for
boolean `false` and for every other number and every other string; and
presence = `false` only for an absent key and for values of any other
dynamic type (`int64`, `json.Number`, null, arrays). -/
theorem c2_theorem :
    (∀ (m : Rec) (k : String), m.lookup k = none → GetBool m k = (false, false)) ∧
    (∀ (m : Rec) (k : String) (b : Bool),
      m.lookup k = some (.wBool b) → GetBool m k = (b, true)) ∧
    (∀ (m : Rec) (k : String) (q : ℚ),
      m.lookup k = some (.wFloat q) → GetBool m k = (decide (q = 1), true)) ∧
    (∀ (m : Rec) (k : String) (n : ℤ),
      m.lookup k = some (.wInt n) → GetBool m k = (decide (n = 1), true)) ∧
    (∀ (m : Rec) (k s : String),
      m.lookup k = some (.wStr s) →
        GetBool m k = (decide (s = "1") || decide (s = "true"), true)) ∧
    (∀ (m : Rec) (k : String) (n : ℤ),
      m.lookup k = some (.wInt64 n) → GetBool m k = (false, false)) ∧
    (∀ (m : Rec) (k s : String),
      m.lookup k = some (.wJsonNum s) → GetBool m k = (false, false)) ∧
    (∀ (m : Rec) (k : String),
      m.lookup k = some .wNull → GetBool m k = (false, false)) ∧
    (∀ (m : Rec) (k : String) (l : List String),
      m.lookup k = some (.wStrArr l) → GetBool m k = (false, false)) := by
  refine ⟨?_, ?_, ?_, ?_, ?_, ?_, ?_, ?_, ?_⟩ <;>
    first
      | (intro m k h
         unfold GetBool
         rw [h])
      | (intro m k x h
         unfold GetBool
         rw [h])

/-- Witness for C2's amended statement at concrete inputs. -/
theorem c2_witness :
    GetBool ([] : Rec) "k" = (false, false) ∧
    GetBool [("k", WireVal.wBool true)] "k" = (true, true) ∧
    GetBool [("k", WireVal.wStr "true")] "k" = (true, true) ∧
    GetBool [("k", WireVal.wInt64 1)] "k" = (false, false) ∧
    GetBool [("k", WireVal.wNull)] "k" = (false, false) := by
  refine ⟨c2_theorem.1 [] "k" rfl,
          c2_theorem.2.1 [("k", WireVal.wBool true)] "k" true rfl, ?_,
          c2_theorem.2.2.2.2.2.1 [("k", WireVal.wInt64 1)] "k" 1 rfl,
          c2_theorem.2.2.2.2.2.2.2.1 [("k", WireVal.wNull)] "k" rfl⟩
  have h := c2_theorem.2.2.2.2.1 [("k", WireVal.wStr "true")] "k" "true" rfl
  rw [h]
  decide

/-- C1 counterexample: with `group_type` unset, the Group update payload
does not contain the key `group_type` at all, and with `weight` unset,
the ACL Role update payload does not contain the key `weight` - both are
omitted rather than sent as explicit null, contradicting the claim that
the update payload always contains every optional field's wire name. -/
theorem c1_counterexample :
    (GroupResource.updateValues
        { name := "g", title := "t" }).lookup "group_type" = none ∧
    (ACLRoleResource.updateValues
        { name := "r", label := "l" }).lookup "weight" = none := by
  decide

/-- C1 as amended: in the RelationshipType, Group and ACL Role adapters
the create payload omits every unset optional field (and carries its
value when set); the update payload always carries the optional string
fields (`description`, the contact type/subtype fields), mapped to
explicit null when unset; but `group_type` (Group) and `weight` (ACL
Role) appear in the update payload only when set - they are omitted, not
nulled, when unset. -/
theorem c1_theorem :
    (∀ p : RelTypePlan,
      (RelationshipTypeResource.createValues p).lookup "description" =
        p.description.map WireVal.wStr ∧
      (RelationshipTypeResource.createValues p).lookup "contact_type_a" =
        p.contactTypeA.map WireVal.wStr ∧
      (RelationshipTypeResource.createValues p).lookup "contact_type_b" =
        p.contactTypeB.map WireVal.wStr ∧
      (RelationshipTypeResource.createValues p).lookup "contact_sub_type_a" =
        p.contactSubTypeA.map WireVal.wStr ∧
      (RelationshipTypeResource.createValues p).lookup "contact_sub_type_b" =
        p.contactSubTypeB.map WireVal.wStr) ∧
    (∀ p : GroupPlan,
      (GroupResource.createValues p).lookup "description" =
        p.description.map WireVal.wStr ∧
      (GroupResource.createValues p).lookup "group_type" =
        p.groupType.map WireVal.wStrArr) ∧
    (∀ (gid : ℤ) (p : ACLRolePlan),
      (ACLRoleResource.createValues gid p).lookup "description" =
        p.description.map WireVal.wStr ∧
      (ACLRoleResource.createValues gid p).lookup "weight" =
        p.weight.map WireVal.wInt64) ∧
    (∀ p : RelTypePlan,
      (RelationshipTypeResource.updateValues p).lookup "description" =
        some (optNullStr p.description) ∧
      (RelationshipTypeResource.updateValues p).lookup "contact_type_a" =
        some (optNullStr p.contactTypeA) ∧
      (RelationshipTypeResource.updateValues p).lookup "contact_type_b" =
        some (optNullStr p.contactTypeB) ∧
      (RelationshipTypeResource.updateValues p).lookup "contact_sub_type_a" =
        some (optNullStr p.contactSubTypeA) ∧
      (RelationshipTypeResource.updateValues p).lookup "contact_sub_type_b" =
        some (optNullStr p.contactSubTypeB)) ∧
    (∀ p : GroupPlan,
      (GroupResource.updateValues p).lookup "description" =
        some (optNullStr p.description) ∧
      (GroupResource.updateValues p).lookup "group_type" =
        p.groupType.map WireVal.wStrArr) ∧
    (∀ p : ACLRolePlan,
      (ACLRoleResource.updateValues p).lookup "description" =
        some (optNullStr p.description) ∧
      (ACLRoleResource.updateValues p).lookup "weight" =
        p.weight.map WireVal.wInt64) := by
  refine ⟨?_, ?_, ?_, ?_, ?_, ?_⟩
  · intro p
    obtain ⟨nab, lab, nba, lba, d, cta, ctb, csta, cstb, ir, ia⟩ := p
    cases d <;> cases cta <;> cases ctb <;> cases csta <;> cases cstb <;>
      simp [RelationshipTypeResource.createValues, List.lookup]
  · intro p
    obtain ⟨n, t, d, ia, vis, gt⟩ := p
    cases d <;> cases gt <;>
      simp [GroupResource.createValues, List.lookup]
  · intro gid p
    obtain ⟨n, l, d, ia, w⟩ := p
    cases d <;> cases w <;>
      simp [ACLRoleResource.createValues, List.lookup]
  · intro p
    obtain ⟨nab, lab, nba, lba, d, cta, ctb, csta, cstb, ir, ia⟩ := p
    simp [RelationshipTypeResource.updateValues, List.lookup]
  · intro p
    obtain ⟨n, t, d, ia, vis, gt⟩ := p
    cases gt <;>
      simp [GroupResource.updateValues, List.lookup]
  · intro p
    obtain ⟨n, l, d, ia, w⟩ := p
    cases w <;>
      simp [ACLRoleResource.updateValues, List.lookup]

/-- The group plan from the spec's example scenario. -/
def volunteersPlan : GroupPlan :=
  { name := "volunteers", title := "Volunteers",
    groupType := some ["Access Control"] }

/-- C3, what the code actually does at the claim's example input: the
create payload carries `group_type` as the raw label list
`["Access Control"]`, not the translated code list `["1"]`, and the read
mapping never touches `group_type` - no name-to-id lookup table is
consulted anywhere in the group resource. -/
theorem c3_code_behavior :
    (GroupResource.createValues volunteersPlan).lookup "group_type" =
      some (WireVal.wStrArr ["Access Control"]) ∧
    (GroupResource.createValues volunteersPlan).lookup "group_type" ≠
      some (WireVal.wStrArr ["1"]) ∧
    (∀ (st : GroupState) (r : Rec),
      (GroupResource.readApply st r).groupType = st.groupType) := by
  refine ⟨by decide, by decide, ?_⟩
  intro st r
  simp only [GroupResource.readApply]
  split <;> split <;> split <;> split <;> split <;> rfl

/-- C4 counterexample: the refresh performed by `ACLRoleResource.Read`
for state id 7 issues exactly one `Get` on `OptionValue` whose `where`
clause is the bare id equality; the `option_group_id:name = "acl_role"`
condition claimed to accompany every post-creation read is not in it. -/
theorem c4_counterexample :
    (ACLRoleResource.Read (fun _ => TransportOutcome.transportError "down") 7).2 =
      [getCall "OptionValue" [("id", "=", WireVal.wInt64 7)] []] ∧
    ("option_group_id:name", "=", WireVal.wStr "acl_role") ∉
      (getCall "OptionValue" [("id", "=", WireVal.wInt64 7)] ([] : List String)).whereCl := by
  constructor
  · rfl
  · decide

/-- C4 as amended: the ACL Role data source's read does filter on
`option_group_id:name = "acl_role"` in addition to the configured id/name
filters, but the resource's own post-creation Read queries `OptionValue`
by the bare id equality filter only. -/
theorem c4_theorem :
    (∀ cfg : ACLRoleDSConfig,
      ("option_group_id:name", "=", WireVal.wStr "acl_role") ∈
        ACLRoleDataSource.whereClause cfg) ∧
    (∀ (net : Net) (id : ℤ),
      (ACLRoleResource.Read net id).2 =
        [getCall "OptionValue" [("id", "=", WireVal.wInt64 id)] []]) := by
  constructor
  · intro cfg
    unfold ACLRoleDataSource.whereClause
    exact List.mem_append_left _ (List.mem_append_left _ (List.mem_singleton.mpr rfl))
  · intro net id
    cases hc : Client.GetByID net "OptionValue" id [] <;>
      simp [ACLRoleResource.Read, Client.GetByIDT, hc]

/-- C5: whenever the request underlying `Client.Create`, `Client.Update`
or `Client.GetByID` comes back as a successfully parsed, error-free
envelope, an empty `values` list yields the corresponding error (never a
zero-value record or an empty success), and a non-empty `values` list
yields its first record. -/
theorem c5_theorem :
    (∀ (net : Net) (entity : String) (vals : List (String × WireVal)) (resp : APIResponse),
      Client.doRequest net (createCall entity vals) = .ok resp →
        (resp.values = [] →
          Client.Create net entity vals = .error "no values returned from create operation") ∧
        (∀ (v : Rec) (vs : List Rec), resp.values = v :: vs →
          Client.Create net entity vals = .ok v)) ∧
    (∀ (net : Net) (entity : String) (id : ℤ) (vals : List (String × WireVal))
        (resp : APIResponse),
      Client.doRequest net (updateCall entity id vals) = .ok resp →
        (resp.values = [] →
          Client.Update net entity id vals = .error "no values returned from update operation") ∧
        (∀ (v : Rec) (vs : List Rec), resp.values = v :: vs →
          Client.Update net entity id vals = .ok v)) ∧
    (∀ (net : Net) (entity : String) (id : ℤ) (select : List String) (resp : APIResponse),
      Client.doRequest net (getCall entity [("id", "=", WireVal.wInt64 id)] select) = .ok resp →
        (resp.values = [] →
          Client.GetByID net entity id select =
            .error (entity ++ " with ID " ++ toString id ++ " not found")) ∧
        (∀ (v : Rec) (vs : List Rec), resp.values = v :: vs →
          Client.GetByID net entity id select = .ok v)) := by
  refine ⟨?_, ?_, ?_⟩
  · intro net entity vals resp h
    constructor
    · intro hv
      simp [Client.Create, h, hv]
    · intro v vs hv
      simp [Client.Create, h, hv]
  · intro net entity id vals resp h
    constructor
    · intro hv
      simp [Client.Update, h, hv]
    · intro v vs hv
      simp [Client.Update, h, hv]
  · intro net entity id select resp h
    constructor
    · intro hv
      simp [Client.GetByID, Client.Get, h, hv]
    · intro v vs hv
      simp [Client.GetByID, Client.Get, h, hv]

/-- A network oracle answering every call with a 200 reply carrying the
given envelope. -/
def constNet (resp : APIResponse) : Net :=
  fun _ => .reply { status := 200, raw := "", body := .wellFormed resp }

/-- Witness for C5 with an empty envelope and a one-record envelope. -/
theorem c5_witness :
    Client.Create (constNet {}) "Group" [] =
      .error "no values returned from create operation" ∧
    Client.Update (constNet {}) "Group" 3 [] =
      .error "no values returned from update operation" ∧
    Client.GetByID (constNet {}) "Group" 3 [] = .error "Group with ID 3 not found" ∧
    Client.Create (constNet { values := [[("id", WireVal.wInt64 1)]] }) "Group" [] =
      .ok [("id", WireVal.wInt64 1)] := by
  refine ⟨(c5_theorem.1 (constNet {}) "Group" [] {} rfl).1 rfl,
          (c5_theorem.2.1 (constNet {}) "Group" 3 [] {} rfl).1 rfl, ?_,
          (c5_theorem.1 (constNet { values := [[("id", WireVal.wInt64 1)]] })
              "Group" [] { values := [[("id", WireVal.wInt64 1)]] } rfl).2
            [("id", WireVal.wInt64 1)] [] rfl⟩
  have h := (c5_theorem.2.2 (constNet {}) "Group" 3 [] {} rfl).1 rfl
  rw [h]
  rfl

/-- C6: full case analysis of `Client.doRequest`.  A non-2xx status is an
error carrying the status code and raw body; a 2xx body that fails to
parse is an error carrying the parse error and raw body; a parsed
envelope with a non-zero error code or non-empty error message is an
error carrying that code and message; otherwise the envelope is returned.
Each outcome is produced from the single transport outcome of the one
request - nothing is retried or suppressed.  (The transport-failure case
is included for completeness.) -/
theorem c6_theorem :
    (∀ (net : Net) (call : ClientCall) (e : String),
      net call = .transportError e →
        Client.doRequest net call = .error ("request failed: " ++ e)) ∧
    (∀ (net : Net) (call : ClientCall) (r : HTTPReply),
      net call = .reply r → (r.status < 200 ∨ 300 ≤ r.status) →
        Client.doRequest net call =
          .error ("API request failed with status " ++ toString r.status ++ ": " ++ r.raw)) ∧
    (∀ (net : Net) (call : ClientCall) (r : HTTPReply) (perr : String),
      net call = .reply r → ¬(r.status < 200 ∨ 300 ≤ r.status) →
      r.body = .malformed perr →
        Client.doRequest net call =
          .error ("failed to parse response: " ++ perr ++ ", body: " ++ r.raw)) ∧
    (∀ (net : Net) (call : ClientCall) (r : HTTPReply) (resp : APIResponse),
      net call = .reply r → ¬(r.status < 200 ∨ 300 ≤ r.status) →
      r.body = .wellFormed resp → (resp.errorCode ≠ 0 ∨ resp.errorMessage ≠ "") →
        Client.doRequest net call =
          .error ("API error " ++ toString resp.errorCode ++ ": " ++ resp.errorMessage)) ∧
    (∀ (net : Net) (call : ClientCall) (r : HTTPReply) (resp : APIResponse),
      net call = .reply r → ¬(r.status < 200 ∨ 300 ≤ r.status) →
      r.body = .wellFormed resp → resp.errorCode = 0 → resp.errorMessage = "" →
        Client.doRequest net call = .ok resp) := by
  refine ⟨?_, ?_, ?_, ?_, ?_⟩
  · intro net call e h
    simp [Client.doRequest, h]
  · intro net call r h hs
    simp [Client.doRequest, h, hs]
  · intro net call r perr h hs hb
    simp [Client.doRequest, h, hs, hb]
  · intro net call r resp h hs hb he
    simp [Client.doRequest, h, hs, hb, he]
  · intro net call r resp h hs hb hc hm
    simp [Client.doRequest, h, hs, hb, hc, hm]

/-- A 500 reply with body text `"boom"`. -/
def reply500 : HTTPReply := { status := 500, raw := "boom", body := .malformed "x" }

/-- A 200 reply whose body does not parse as JSON. -/
def replyBadJSON : HTTPReply :=
  { status := 200, raw := "<html>", body := .malformed "invalid character" }

/-- A 200 reply whose envelope carries an API-level error. -/
def replyAPIError : HTTPReply :=
  { status := 200, raw := "",
    body := .wellFormed { errorCode := 42, errorMessage := "denied" } }

/-- A 200 reply with a clean empty envelope. -/
def replyClean : HTTPReply := { status := 200, raw := "", body := .wellFormed {} }

/-- Witness for C6: each of the five cases exercised at a concrete call
and transport outcome. -/
theorem c6_witness :
    Client.doRequest (fun _ => .transportError "connection refused") (deleteCall "Group" 1) =
      .error ("request failed: " ++ "connection refused") ∧
    Client.doRequest (fun _ => .reply reply500) (deleteCall "Group" 1) =
      .error ("API request failed with status " ++ toString reply500.status ++ ": " ++ reply500.raw) ∧
    Client.doRequest (fun _ => .reply replyBadJSON) (deleteCall "Group" 1) =
      .error ("failed to parse response: " ++ "invalid character" ++ ", body: " ++ replyBadJSON.raw) ∧
    Client.doRequest (fun _ => .reply replyAPIError) (deleteCall "Group" 1) =
      .error ("API error " ++ toString (42 : ℤ) ++ ": " ++ "denied") ∧
    Client.doRequest (fun _ => .reply replyClean) (deleteCall "Group" 1) = .ok {} := by
  refine ⟨c6_theorem.1 (fun _ => .transportError "connection refused")
            (deleteCall "Group" 1) "connection refused" rfl,
          c6_theorem.2.1 (fun _ => .reply reply500)
            (deleteCall "Group" 1) reply500 rfl (by decide),
          c6_theorem.2.2.1 (fun _ => .reply replyBadJSON)
            (deleteCall "Group" 1) replyBadJSON "invalid character" rfl (by decide) rfl,
          c6_theorem.2.2.2.1 (fun _ => .reply replyAPIError)
            (deleteCall "Group" 1) replyAPIError
            { errorCode := 42, errorMessage := "denied" } rfl (by decide) rfl (by decide),
          c6_theorem.2.2.2.2 (fun _ => .reply replyClean)
            (deleteCall "Group" 1) replyClean {} rfl (by decide) rfl rfl rfl⟩

/-- C7: a Group or ACL Role data-source read invoked with neither `id`
nor `name` set returns the Missing Filter input error and issues no
client call at all (the call trace is empty). -/
theorem c7_theorem :
    (∀ (net : Net) (cfg : GroupDSConfig), cfg.id = none → cfg.name = none →
      GroupDataSource.Read net cfg =
        (.error ("Missing Filter", "At least one of 'id' or 'name' must be specified."), [])) ∧
    (∀ (net : Net) (cfg : ACLRoleDSConfig), cfg.id = none → cfg.name = none →
      ACLRoleDataSource.Read net cfg =
        (.error ("Missing Filter", "At least one of 'id' or 'name' must be specified."), [])) := by
  constructor
  · intro net cfg hid hname
    simp [GroupDataSource.Read, GroupDataSource.whereClause, hid, hname]
  · intro net cfg hid hname
    simp [ACLRoleDataSource.Read, hid, hname]

/-- Witness for C7 at the empty configurations with a live-looking
network oracle, which is never consulted. -/
theorem c7_witness :
    GroupDataSource.Read (constNet {}) {} =
      (.error ("Missing Filter", "At least one of 'id' or 'name' must be specified."), []) ∧
    ACLRoleDataSource.Read (constNet {}) {} =
      (.error ("Missing Filter", "At least one of 'id' or 'name' must be specified."), []) := by
  exact ⟨c7_theorem.1 (constNet {}) {} rfl rfl, c7_theorem.2 (constNet {}) {} rfl rfl⟩

/-- C8: ACL Role create first issues the single `Get` resolving the
`acl_role` option group; if that lookup fails, it is the only call issued
and no create happens; if it succeeds with id `gid`, exactly one further
call follows - the `OptionValue` create - and its values map binds
`option_group_id` to `gid`. -/
theorem c8_theorem :
    (∀ (net : Net) (p : ACLRolePlan) (e : String),
      Client.GetOptionGroupID net "acl_role" = .error e →
        ACLRoleResource.Create net p =
          (.error ("Error looking up option group",
                   "Could not find acl_role option group: " ++ e),
           [getCall "OptionGroup" [("name", "=", WireVal.wStr "acl_role")] []])) ∧
    (∀ (net : Net) (p : ACLRolePlan) (gid : ℤ),
      Client.GetOptionGroupID net "acl_role" = .ok gid →
        (ACLRoleResource.Create net p).2 =
          [getCall "OptionGroup" [("name", "=", WireVal.wStr "acl_role")] [],
           createCall "OptionValue" (ACLRoleResource.createValues gid p)] ∧
        (ACLRoleResource.createValues gid p).lookup "option_group_id" =
          some (WireVal.wInt64 gid)) := by
  constructor
  · intro net p e h
    simp [ACLRoleResource.Create, Client.GetOptionGroupIDT, h]
  · intro net p gid h
    constructor
    · cases hc : Client.Create net "OptionValue" (ACLRoleResource.createValues gid p) <;>
        simp [ACLRoleResource.Create, Client.GetOptionGroupIDT, Client.CreateT, h, hc]
    · rfl

/-- A network oracle for the C8 witness: the `OptionGroup` lookup answers
with id 5, every other call answers with a fresh record of id 9. -/
def c8net : Net := fun c =>
  if c.entity = "OptionGroup" then
    .reply { status := 200, raw := "",
             body := .wellFormed { values := [[("id", WireVal.wInt64 5)]] } }
  else
    .reply { status := 200, raw := "",
             body := .wellFormed { values := [[("id", WireVal.wInt64 9)]] } }

/-- Witness for C8: the successful two-call path under `c8net`, and the
lookup-failure path under a dead transport, where the only call issued is
the lookup itself. -/
theorem c8_witness :
    ((ACLRoleResource.Create c8net { name := "volunteer_manager", label := "Volunteer Manager" }).2 =
      [getCall "OptionGroup" [("name", "=", WireVal.wStr "acl_role")] [],
       createCall "OptionValue"
         (ACLRoleResource.createValues 5 { name := "volunteer_manager", label := "Volunteer Manager" })] ∧
     (ACLRoleResource.createValues 5 { name := "volunteer_manager", label := "Volunteer Manager" }).lookup
        "option_group_id" = some (WireVal.wInt64 5)) ∧
    ACLRoleResource.Create (fun _ => TransportOutcome.transportError "down")
        { name := "volunteer_manager", label := "Volunteer Manager" } =
      (.error ("Error looking up option group",
               "Could not find acl_role option group: " ++ ("request failed: " ++ "down")),
       [getCall "OptionGroup" [("name", "=", WireVal.wStr "acl_role")] []]) := by
  exact ⟨c8_theorem.2 c8net { name := "volunteer_manager", label := "Volunteer Manager" } 5 rfl,
         c8_theorem.1 (fun _ => TransportOutcome.transportError "down")
           { name := "volunteer_manager", label := "Volunteer Manager" }
           ("request failed: " ++ "down") rfl⟩

/-- C9: when the `Get` underlying a data-source read returns more than
one record, the read succeeds and populates state from the first record;
no ambiguity error exists for multiple matches.  Stated for the ACL Role
and ACL Entity Role data sources. -/
theorem c9_theorem :
    (∀ (net : Net) (cfg : ACLRoleDSConfig) (r1 r2 : Rec) (rest : List Rec),
      ¬(cfg.id = none ∧ cfg.name = none) →
      Client.Get net "OptionValue" (ACLRoleDataSource.whereClause cfg) [] =
        .ok (r1 :: r2 :: rest) →
        (ACLRoleDataSource.Read net cfg).1 = .ok (ACLRoleDataSource.apply cfg r1)) ∧
    (∀ (net : Net) (cfg : ACLEntityRoleDSConfig) (r1 r2 : Rec) (rest : List Rec),
      (cfg.id ≠ none ∨ (cfg.aclRoleID ≠ none ∧ cfg.entityID ≠ none)) →
      Client.Get net "ACLEntityRole" (ACLEntityRoleDataSource.whereClause cfg) [] =
        .ok (r1 :: r2 :: rest) →
        (ACLEntityRoleDataSource.Read net cfg).1 =
          .ok (ACLEntityRoleDataSource.apply cfg r1)) := by
  constructor
  · intro net cfg r1 r2 rest hf hget
    simp [ACLRoleDataSource.Read, Client.GetT, hf, hget]
  · intro net cfg r1 r2 rest hf hget
    simp [ACLEntityRoleDataSource.Read, Client.GetT, hf, hget]

/-- A network oracle for the C9 witness: every call answers with two
records, ids 11 and 12. -/
def twoRecNet : Net :=
  constNet { values := [[("id", WireVal.wInt64 11)], [("id", WireVal.wInt64 12)]] }

/-- Witness for C9: under `twoRecNet`, both reads succeed and take the
first of the two returned records. -/
theorem c9_witness :
    (ACLRoleDataSource.Read twoRecNet { id := some 1 }).1 =
      .ok (ACLRoleDataSource.apply { id := some 1 } [("id", WireVal.wInt64 11)]) ∧
    (ACLEntityRoleDataSource.Read twoRecNet { id := some 1 }).1 =
      .ok (ACLEntityRoleDataSource.apply { id := some 1 } [("id", WireVal.wInt64 11)]) := by
  exact ⟨c9_theorem.1 twoRecNet { id := some 1 } [("id", WireVal.wInt64 11)]
           [("id", WireVal.wInt64 12)] [] (by simp) rfl,
         c9_theorem.2 twoRecNet { id := some 1 } [("id", WireVal.wInt64 11)]
           [("id", WireVal.wInt64 12)] [] (by simp) rfl⟩

end CiviCRM
